import Mathlib

/-!
Shallow embedding of the vehicle loyalty/offer subsystem of the
Carwash-Management-App backend.

The relational store is modelled as an explicit state (`DB`) holding the
`vehicles`, `offers`, `vehicle_stats` and `vehicle_offers` tables as lists of
rows.  Each model operation (from `src/backend/models/VehicleOffer.js`,
`src/backend/models/Offer.js` and the `VehicleStats` model concatenated into
`src/backend/models/AttendantService.js`) is a function from the state to the
new state, returning `Except String` where the JavaScript code throws.
Controller operations (from `src/backend/controllers/vehicleOfferController.js`
and `vehicleStatsController.js`) wrap the model operations and produce an HTTP
status code and message.

Conventions of the embedding:
* timestamps and dates are `Nat` (`now` / `today` are explicit parameters
  wherever the code reads `CURRENT_TIMESTAMP` / `CURRENT_DATE`);
* the `status` column is a `String`, exactly as in the JavaScript code
  (the literals used are "active", "used", "expired");
* nullable columns are `Option`; a missing (undefined) input field is `none`
  or, for JavaScript truthiness checks on ids, the value `0`;
* the statistics counters are `Nat` (the columns are non-negative integer
  counters);
* `affectedRows` of a conditional `UPDATE` is the number of rows matched by
  the `WHERE` clause (every executed update also touches `updated_at`, so
  matched and changed rows coincide).
-/

/-- A row of the `vehicle_offers` table. -/
structure VORow where
  id : Nat
  vehicle_id : Nat
  offer_id : Nat
  earned_on_visit_id : Option Nat
  issued_date : Nat
  used_date : Option Nat
  used_on_visit_id : Option Nat
  status : String
  notes : Option String
  deriving Repr, DecidableEq

/-- A row of the `offers` table. -/
structure OfferRow where
  id : Nat
  name : String
  description : Option String
  visit_threshold : Int
  discount_type : String
  discount_value : Option Int
  is_active : Bool
  valid_from : Option Nat
  valid_until : Option Nat
  deriving Repr, DecidableEq

/-- A row of the `vehicle_stats` table (keyed uniquely by `vehicle_id`). -/
structure StatsRow where
  vehicle_id : Nat
  total_visits : Nat
  current_visit_count : Nat
  total_offers_earned : Nat
  total_offers_used : Nat
  last_visit_date : Option Nat
  deriving Repr, DecidableEq

/-- The persistent store: the four tables the loyalty subsystem touches.
`vehicles` only matters through existence of an id, so it is the list of ids. -/
structure DB where
  vehicles : List Nat
  offers : List OfferRow
  vehicle_stats : List StatsRow
  vehicle_offers : List VORow
  deriving Repr, DecidableEq

/-- `SELECT * FROM vehicle_offers WHERE id = ?` returning the first row
(`offers[0]`), as in `VehicleOffer.findById`. -/
def findVO (db : DB) (i : Nat) : Option VORow :=
  db.vehicle_offers.find? (fun r => r.id == i)

/-- `SELECT ... FROM vehicle_stats WHERE vehicle_id = ?` returning the first
row, as in `VehicleStats.findByVehicleId`. -/
def findStats (db : DB) (v : Nat) : Option StatsRow :=
  db.vehicle_stats.find? (fun s => s.vehicle_id == v)

/-- `VehicleOffer.hasActiveOffer`: `COUNT(*) > 0` over rows with the given
vehicle, offer and status `active`. -/
def hasActiveOffer (db : DB) (v o : Nat) : Bool :=
  db.vehicle_offers.any (fun r => r.vehicle_id == v && r.offer_id == o && r.status == "active")

/-- Number of `active` rows for a (vehicle, offer) pair; the quantity the
at-most-one-active invariant bounds by 1. -/
def activePairCount (db : DB) (v o : Nat) : Nat :=
  db.vehicle_offers.countP (fun r => r.vehicle_id == v && r.offer_id == o && r.status == "active")

/-- The row transformation of the conditional update in
`VehicleOffer.markAsUsed`:
`SET status = used, used_date = now, used_on_visit_id = ?, notes = ?`
applied to the rows matched by `WHERE id = ? AND status = active`. -/
def markUsedMap (rows : List VORow) (i vid : Nat) (nts : Option String) (now : Nat) : List VORow :=
  rows.map (fun r =>
    if r.id = i ∧ r.status = "active" then
      { r with status := "used", used_date := some now, used_on_visit_id := some vid, notes := nts }
    else r)

/-- `affectedRows` of the conditional update in `markAsUsed` /
`markAsExpired`: rows matched by `WHERE id = ? AND status = active`. -/
def markAffected (rows : List VORow) (i : Nat) : Nat :=
  rows.countP (fun r => r.id == i && r.status == "active")

/-- `VehicleOffer.markAsUsed(id, usedOnVisitId, notes)`: conditional update
guarded by `status = active`; zero affected rows throws
`Vehicle offer not found or not active`, otherwise the updated row is
re-read with `findById`. -/
def VehicleOffer.markAsUsed (db : DB) (i vid : Nat) (nts : Option String) (now : Nat) :
    Except String (DB × VORow) :=
  let db' : DB := { db with vehicle_offers := markUsedMap db.vehicle_offers i vid nts now }
  if markAffected db.vehicle_offers i = 0 then
    .error "Vehicle offer not found or not active"
  else
    match findVO db' i with
    | some r => .ok (db', r)
    -- unreachable: a positive affected count means a row with this id exists
    | none => .error "Vehicle offer not found or not active"

/-- The row transformation of the conditional update in
`VehicleOffer.markAsExpired`: `SET status = expired, notes = ?` applied to the
rows matched by `WHERE id = ? AND status = active`. -/
def markExpiredMap (rows : List VORow) (i : Nat) (nts : Option String) : List VORow :=
  rows.map (fun r =>
    if r.id = i ∧ r.status = "active" then
      { r with status := "expired", notes := nts }
    else r)

/-- `VehicleOffer.markAsExpired(id, notes)`: conditional update guarded by
`status = active`; zero affected rows throws. -/
def VehicleOffer.markAsExpired (db : DB) (i : Nat) (nts : Option String) :
    Except String (DB × VORow) :=
  let db' : DB := { db with vehicle_offers := markExpiredMap db.vehicle_offers i nts }
  if markAffected db.vehicle_offers i = 0 then
    .error "Vehicle offer not found or not active"
  else
    match findVO db' i with
    | some r => .ok (db', r)
    -- unreachable: a positive affected count means a row with this id exists
    | none => .error "Vehicle offer not found or not active"

/-- The partial-update body of `VehicleOffer.update`: a field is `some v`
exactly when the corresponding request field is not `undefined`. -/
structure VOPatch where
  vehicle_id : Option Nat := none
  offer_id : Option Nat := none
  earned_on_visit_id : Option Nat := none
  issued_date : Option Nat := none
  used_date : Option Nat := none
  used_on_visit_id : Option Nat := none
  status : Option String := none
  notes : Option String := none
  deriving Repr, DecidableEq

/-- True when every field of the patch is absent (`updateData` empty). -/
def VOPatch.isEmpty (p : VOPatch) : Bool :=
  p.vehicle_id.isNone && p.offer_id.isNone && p.earned_on_visit_id.isNone &&
  p.issued_date.isNone && p.used_date.isNone && p.used_on_visit_id.isNone &&
  p.status.isNone && p.notes.isNone

/-- Apply the dynamically-built `SET` clause of `VehicleOffer.update` to one
row: each provided field overwrites the stored value, the others are kept. -/
def applyVOPatch (p : VOPatch) (r : VORow) : VORow :=
  { r with
    vehicle_id := p.vehicle_id.getD r.vehicle_id
    offer_id := p.offer_id.getD r.offer_id
    earned_on_visit_id := p.earned_on_visit_id.orElse (fun _ => r.earned_on_visit_id)
    issued_date := p.issued_date.getD r.issued_date
    used_date := p.used_date.orElse (fun _ => r.used_date)
    used_on_visit_id := p.used_on_visit_id.orElse (fun _ => r.used_on_visit_id)
    status := p.status.getD r.status
    notes := p.notes.orElse (fun _ => r.notes) }

/-- `VehicleOffer.update(id, updateData)`: unconditional
`UPDATE vehicle_offers SET ... WHERE id = ?` (no status guard); returns
`null` when zero rows were matched, otherwise the re-read row. -/
def VehicleOffer.update (db : DB) (i : Nat) (p : VOPatch) : DB × Option VORow :=
  let db' : DB :=
    { db with vehicle_offers :=
        db.vehicle_offers.map (fun r => if r.id = i then applyVOPatch p r else r) }
  (db', if db.vehicle_offers.countP (fun r => r.id == i) = 0 then none else findVO db' i)

/-- Linked offer lookup of the `LEFT JOIN offers o ON vo.offer_id = o.id` in
the expiry sweep: the joined `o.valid_until`, `none` when the offer row is
absent (the join yields NULL). -/
def offerValidUntil (offers : List OfferRow) (oid : Nat) : Option Nat :=
  (offers.find? (fun o => o.id == oid)).bind (fun o => o.valid_until)

/-- The `WHERE` clause of `VehicleOffer.expireOffers`: status `active` and the
joined `valid_until` is non-NULL and strictly before today. -/
def voStale (offers : List OfferRow) (today : Nat) (r : VORow) : Bool :=
  r.status == "active" &&
    (match offerValidUntil offers r.offer_id with
     | some d => d < today
     | none => false)

/-- The note stamped by the expiry sweep:
`CONCAT('Auto-expired: Offer validity ended on ', o.valid_until)`. -/
def autoExpireNote (d : Nat) : String :=
  "Auto-expired: Offer validity ended on " ++ toString d

/-- The per-row effect of the sweep update: matched rows get status `expired`
and the stamped note, others are untouched. -/
def expireStep (offers : List OfferRow) (today : Nat) (r : VORow) : VORow :=
  if voStale offers today r then
    { r with status := "expired",
             notes := some (autoExpireNote ((offerValidUntil offers r.offer_id).getD 0)) }
  else r

/-- `VehicleOffer.expireOffers()`: the batch `UPDATE ... LEFT JOIN offers`
sweep; returns the new state and `affectedRows`. -/
def VehicleOffer.expireOffers (db : DB) (today : Nat) : DB × Nat :=
  ({ db with vehicle_offers := db.vehicle_offers.map (expireStep db.offers today) },
   db.vehicle_offers.countP (voStale db.offers today))

/-- `VehicleStats.recordVisit(vehicleId)`: checks the vehicle exists
(`Vehicle not found` otherwise), then performs the single
`INSERT ... ON DUPLICATE KEY UPDATE` upsert: insert with both counters 1 and
`last_visit_date = now`, or increment both counters and refresh the date. -/
def VehicleStats.recordVisit (db : DB) (v : Nat) (now : Nat) : Except String DB :=
  if v ∈ db.vehicles then
    match findStats db v with
    | some _ =>
        .ok { db with vehicle_stats := db.vehicle_stats.map (fun s =>
          if s.vehicle_id = v then
            { s with total_visits := s.total_visits + 1,
                     current_visit_count := s.current_visit_count + 1,
                     last_visit_date := some now }
          else s) }
    | none =>
        .ok { db with vehicle_stats :=
          db.vehicle_stats ++ [⟨v, 1, 1, 0, 0, some now⟩] }
  else .error "Vehicle not found"

/-- `VehicleStats.resetVisitCount(vehicleId)`: sets `current_visit_count = 0`;
zero affected rows throws `Vehicle statistics not found`. -/
def VehicleStats.resetVisitCount (db : DB) (v : Nat) : Except String DB :=
  if (findStats db v).isSome then
    .ok { db with vehicle_stats := db.vehicle_stats.map (fun s =>
      if s.vehicle_id = v then { s with current_visit_count := 0 } else s) }
  else .error "Vehicle statistics not found"

/-- The `SET total_offers_earned = total_offers_earned + 1` update of
`incrementOffersEarned`, applied to the rows of the given vehicle. -/
def bumpEarned (db : DB) (v : Nat) : DB :=
  { db with vehicle_stats := db.vehicle_stats.map (fun s =>
      if s.vehicle_id = v then { s with total_offers_earned := s.total_offers_earned + 1 } else s) }

/-- The `SET total_offers_used = total_offers_used + 1` update of
`incrementOffersUsed`, applied to the rows of the given vehicle. -/
def bumpUsed (db : DB) (v : Nat) : DB :=
  { db with vehicle_stats := db.vehicle_stats.map (fun s =>
      if s.vehicle_id = v then { s with total_offers_used := s.total_offers_used + 1 } else s) }

/-- `VehicleStats.incrementOffersEarned(vehicleId)`: increment
`total_offers_earned`; when the `UPDATE` matches no row, fall back to
`recordVisit` (which inserts the row with both visit counters 1) and retry.
The retry in the source is a recursive call; it is unfolded once here because
after a successful `recordVisit` the row exists, so the retry takes the
update branch (the final `error` branch is unreachable). -/
def VehicleStats.incrementOffersEarned (db : DB) (v : Nat) (now : Nat) : Except String DB :=
  match findStats db v with
  | some _ => .ok (bumpEarned db v)
  | none =>
      match VehicleStats.recordVisit db v now with
      | .error e => .error e
      | .ok db1 =>
          match findStats db1 v with
          | some _ => .ok (bumpEarned db1 v)
          | none => .error "Vehicle statistics not found"

/-- `VehicleStats.incrementOffersUsed(vehicleId)`: increment
`total_offers_used`, with the same absent-row fallback through `recordVisit`
as `incrementOffersEarned`. -/
def VehicleStats.incrementOffersUsed (db : DB) (v : Nat) (now : Nat) : Except String DB :=
  match findStats db v with
  | some _ => .ok (bumpUsed db v)
  | none =>
      match VehicleStats.recordVisit db v now with
      | .error e => .error e
      | .ok db1 =>
          match findStats db1 v with
          | some _ => .ok (bumpUsed db1 v)
          | none => .error "Vehicle statistics not found"

/-- The partial-update body of `VehicleStats.updateStats`. -/
structure StatsPatch where
  total_visits : Option Nat := none
  current_visit_count : Option Nat := none
  total_offers_earned : Option Nat := none
  total_offers_used : Option Nat := none
  deriving Repr, DecidableEq

/-- `VehicleStats.updateStats(vehicleId, updateData)` (manual admin adjust):
sets exactly the provided counters, with no validation of the values; zero
affected rows throws `Vehicle statistics not found`. -/
def VehicleStats.updateStats (db : DB) (v : Nat) (p : StatsPatch) : Except String DB :=
  if (findStats db v).isSome then
    .ok { db with vehicle_stats := db.vehicle_stats.map (fun s =>
      if s.vehicle_id = v then
        { s with total_visits := p.total_visits.getD s.total_visits,
                 current_visit_count := p.current_visit_count.getD s.current_visit_count,
                 total_offers_earned := p.total_offers_earned.getD s.total_offers_earned,
                 total_offers_used := p.total_offers_used.getD s.total_offers_used }
      else s) }
  else .error "Vehicle statistics not found"

/-- `VehicleStats.initializeStats(vehicleId)`: return the existing row, or
insert a row with both visit counters 0 (offer counters default 0). -/
def VehicleStats.initStats (db : DB) (v : Nat) : DB :=
  match findStats db v with
  | some _ => db
  | none => { db with vehicle_stats := db.vehicle_stats ++ [⟨v, 0, 0, 0, 0, none⟩] }

/-- Decidable form of the ledger invariant
`current_visit_count ≤ total_visits` over every stored row. -/
def statsInvB (db : DB) : Bool :=
  db.vehicle_stats.all (fun s => s.current_visit_count ≤ s.total_visits)

/-- The input of `Offer.create`: destructured request body fields, with the
JavaScript defaults (`is_active = true`).  A missing string is `""`, a
missing numeric field is `none`. -/
structure OfferInput where
  name : String := ""
  description : Option String := none
  visit_threshold : Option Int := none
  discount_type : String := ""
  discount_value : Option Int := none
  is_active : Bool := true
  valid_from : Option Nat := none
  valid_until : Option Nat := none
  deriving Repr, DecidableEq

/-- JavaScript truthiness of an optional numeric field: absent, null and `0`
are falsy, every other number (negatives included) is truthy. -/
def intTruthy : Option Int → Bool
  | none => false
  | some v => v != 0

/-- The condition `!discount_value || discount_value <= 0` of `Offer.create`:
absent, null, zero or negative. -/
def valueMissingOrNonpos : Option Int → Bool
  | none => true
  | some v => v ≤ 0

/-- The condition `discount_value && discount_value > 0` of `Offer.create`:
present, truthy and strictly positive. -/
def valuePositive : Option Int → Bool
  | none => false
  | some v => decide (0 < v) && v != 0

/-- `Offer.create(offerData)`: required-field check, discount-type enum
check, the discount_value/discount_type pairing rules, then the insert (with
`discount_value` forced to 0 for `free_wash`). -/
def Offer.create (db : DB) (inp : OfferInput) (nextId : Nat) : Except String (DB × OfferRow) :=
  if inp.name = "" ∨ intTruthy inp.visit_threshold = false ∨ inp.discount_type = "" then
    .error "Name, visit threshold, and discount type are required"
  else if ¬ (inp.discount_type = "percentage" ∨ inp.discount_type = "fixed_amount" ∨
             inp.discount_type = "free_wash") then
    .error "Invalid discount type. Must be: percentage, fixed_amount, or free_wash"
  else if inp.discount_type ≠ "free_wash" ∧ valueMissingOrNonpos inp.discount_value = true then
    .error "Discount value is required and must be positive for non-free wash offers"
  else if inp.discount_type = "free_wash" ∧ valuePositive inp.discount_value = true then
    .error "Discount value should be null or 0 for free_wash offers"
  else
    let row : OfferRow :=
      { id := nextId
        name := inp.name
        description := inp.description
        visit_threshold := inp.visit_threshold.getD 0
        discount_type := inp.discount_type
        discount_value := if inp.discount_type = "free_wash" then some 0 else inp.discount_value
        is_active := inp.is_active
        valid_from := inp.valid_from
        valid_until := inp.valid_until }
    .ok ({ db with offers := db.offers ++ [row] }, row)

/-- The request body of `createVehicleOffer`: a missing id is `0` (falsy),
`status` defaults to `active` as in the controller destructuring. -/
structure VOCreateBody where
  vehicle_id : Nat := 0
  offer_id : Nat := 0
  earned_on_visit_id : Option Nat := none
  issued_date : Option Nat := none
  used_date : Option Nat := none
  used_on_visit_id : Option Nat := none
  status : String := "active"
  notes : Option String := none
  deriving Repr, DecidableEq

/-- `VehicleOffer.create(offerData)`: required-id check then the insert, with
`issued_date` defaulting to now (`new Date()`). -/
def VehicleOffer.create (db : DB) (b : VOCreateBody) (nextId now : Nat) :
    Except String (DB × VORow) :=
  if b.vehicle_id = 0 ∨ b.offer_id = 0 then
    .error "Vehicle ID and Offer ID are required"
  else
    let row : VORow :=
      { id := nextId
        vehicle_id := b.vehicle_id
        offer_id := b.offer_id
        earned_on_visit_id := b.earned_on_visit_id
        issued_date := b.issued_date.getD now
        used_date := b.used_date
        used_on_visit_id := b.used_on_visit_id
        status := b.status
        notes := b.notes }
    .ok ({ db with vehicle_offers := db.vehicle_offers ++ [row] }, row)

/-- Outcome of a controller operation: the (possibly updated) store, the HTTP
status code and the response message. -/
structure CtrlOut where
  db : DB
  code : Nat
  msg : String
  deriving Repr, DecidableEq

/-- `vehicleOfferController.createVehicleOffer`: required-field check, the
`hasActiveOffer` duplicate guard (only when the new status is `active`), the
insert, then the best-effort `incrementOffersEarned` whose failure is caught
and ignored. -/
def createVehicleOffer (db : DB) (b : VOCreateBody) (nextId now : Nat) : CtrlOut :=
  if b.vehicle_id = 0 ∨ b.offer_id = 0 then
    ⟨db, 400, "Vehicle ID and Offer ID are required"⟩
  else if hasActiveOffer db b.vehicle_id b.offer_id ∧ b.status = "active" then
    ⟨db, 400, "Vehicle already has an active offer of this type"⟩
  else
    match VehicleOffer.create db b nextId now with
    | .error e => ⟨db, 500, e⟩
    | .ok (db1, _) =>
        let db2 :=
          if b.status = "active" ∧ b.earned_on_visit_id.isSome then
            match VehicleStats.incrementOffersEarned db1 b.vehicle_id now with
            | .ok d => d
            | .error _ => db1
          else db1
        ⟨db2, 201, "Vehicle offer created successfully"⟩

/-- `vehicleOfferController.updateVehicleOffer`: 404 when the row is absent;
the duplicate-active guard runs only when `vehicle_id` or `offer_id` is
provided and the provided status is `active`, and its rejection is further
conditioned on `existingOffer.id !== parseInt(id)` — the row just fetched by
that very id — exactly as in the source; then the empty-body check and the
generic update. -/
def updateVehicleOffer (db : DB) (i : Nat) (p : VOPatch) : CtrlOut :=
  match findVO db i with
  | none => ⟨db, 404, "Vehicle offer not found"⟩
  | some existing =>
      if (p.vehicle_id.isSome ∨ p.offer_id.isSome) ∧ p.status = some "active" ∧
         hasActiveOffer db (p.vehicle_id.getD existing.vehicle_id)
           (p.offer_id.getD existing.offer_id) = true ∧
         existing.id ≠ i then
        ⟨db, 400, "Vehicle already has an active offer of this type"⟩
      else if p.isEmpty then
        ⟨db, 400, "No fields to update"⟩
      else
        ⟨(VehicleOffer.update db i p).1, 200, "Vehicle offer updated successfully"⟩

/-- `vehicleOfferController.markOfferAsUsed`: requires a truthy
`used_on_visit_id`, performs `markAsUsed` (500 on failure), then tries
`incrementOffersUsed` followed by `resetVisitCount` for the offer row's
vehicle, catching and ignoring any stats error. -/
def markOfferAsUsed (db : DB) (i vid : Nat) (nts : Option String) (now : Nat) : CtrlOut :=
  if vid = 0 then
    ⟨db, 400, "Used on visit ID is required"⟩
  else
    match VehicleOffer.markAsUsed db i vid nts now with
    | .error _ => ⟨db, 500, "Error marking offer as used"⟩
    | .ok (db1, row) =>
        let db2 :=
          match VehicleStats.incrementOffersUsed db1 row.vehicle_id now with
          | .error _ => db1
          | .ok dbA =>
              match VehicleStats.resetVisitCount dbA row.vehicle_id with
              | .error _ => dbA
              | .ok dbB => dbB
        ⟨db2, 200, "Vehicle offer marked as used successfully"⟩

/-- The ledger invariant as a proposition over the store. -/
def statsInv (db : DB) : Prop :=
  ∀ s ∈ db.vehicle_stats, s.current_visit_count ≤ s.total_visits

/-! ### Concrete states used as witnesses and counterexamples -/

/-- A store with one active and one terminal `vehicle_offers` row for the
same (vehicle, offer) pair (1, 1). -/
def exPairDB : DB where
  vehicles := [1]
  offers := []
  vehicle_stats := []
  vehicle_offers := [
    ⟨1, 1, 1, none, 10, none, none, "active", none⟩,
    ⟨2, 1, 1, none, 11, none, none, "expired", none⟩ ]

/-- A store whose only `vehicle_offers` row is already `used`. -/
def exUsedDB : DB :=
  ⟨[], [], [], [⟨1, 3, 7, none, 10, some 20, some 5, "used", some "old"⟩]⟩

/-- A store with one vehicle, its stats row, and one active offer row. -/
def exRedeemDB : DB :=
  ⟨[4], [], [⟨4, 6, 5, 1, 0, some 9⟩], [⟨7, 4, 2, some 3, 10, none, none, "active", none⟩]⟩

/-- A store with a known vehicle and no stats row. -/
def exFreshDB : DB := ⟨[1], [], [], []⟩

/-- A store with one stats row `total_visits = 5`, `current_visit_count = 3`. -/
def exStatsDB : DB := ⟨[1], [], [⟨1, 5, 3, 0, 0, none⟩], []⟩

/-- A store with an offer whose validity ended on day 50, one active offer
row linked to it, one active row linked elsewhere, and one used row. -/
def exExpireDB : DB :=
  ⟨[], [⟨2, "o", none, 5, "free_wash", some 0, true, none, some 50⟩], [],
   [⟨7, 4, 2, none, 10, none, none, "active", none⟩,
    ⟨8, 4, 3, none, 10, none, none, "active", none⟩,
    ⟨9, 5, 2, none, 10, none, none, "used", none⟩]⟩

/-! ### Helper lemmas -/

/-- `find?` with a key predicate commutes with mapping a key-preserving
function over the rows. -/
theorem find?_key_map {α : Type} (key : α → Nat) (l : List α) (k : Nat) (f : α → α)
    (hf : ∀ a, key (f a) = key a) :
    (l.map f).find? (fun a => key a == k) = (l.find? (fun a => key a == k)).map f := by
  rw [List.find?_map]
  have : ((fun a => key a == k) ∘ f) = (fun a => key a == k) := by
    funext a
    simp [Function.comp, hf]
  rw [this]

/-- When no row with the given id is `active`, the conditional update of
`markAsUsed` / `markAsExpired` matches zero rows. -/
theorem markAffected_eq_zero (rows : List VORow) (i : Nat)
    (h : ∀ r ∈ rows, r.id = i → r.status ≠ "active") : markAffected rows i = 0 := by
  unfold markAffected
  rw [List.countP_eq_zero]
  intro r hr hc
  rw [Bool.and_eq_true, beq_iff_eq, beq_iff_eq] at hc
  exact h r hr hc.1 hc.2

/-- When no row with the given id is `active`, the `markAsUsed` update leaves
every stored row unchanged. -/
theorem markUsedMap_eq_self (rows : List VORow) (i vid : Nat) (nts : Option String) (now : Nat)
    (h : ∀ r ∈ rows, r.id = i → r.status ≠ "active") :
    markUsedMap rows i vid nts now = rows := by
  unfold markUsedMap
  conv_rhs => rw [← List.map_id rows]
  apply List.map_congr_left
  intro r hr
  have hc : ¬(r.id = i ∧ r.status = "active") := fun hc => h r hr hc.1 hc.2
  simp [hc]

/-- When no row with the given id is `active`, the `markAsExpired` update
leaves every stored row unchanged. -/
theorem markExpiredMap_eq_self (rows : List VORow) (i : Nat) (nts : Option String)
    (h : ∀ r ∈ rows, r.id = i → r.status ≠ "active") :
    markExpiredMap rows i nts = rows := by
  unfold markExpiredMap
  conv_rhs => rw [← List.map_id rows]
  apply List.map_congr_left
  intro r hr
  have hc : ¬(r.id = i ∧ r.status = "active") := fun hc => h r hr hc.1 hc.2
  simp [hc]

/-! ### Claim theorems -/

/-- C1: the update operation of the controller is supposed to reject a
duplicate active offer for the same (vehicle, offer) pair, but its rejection
guard compares the fetched row's id with the id it was fetched by and is
therefore always false.  At this concrete state, pair (1, 1) already has an
active row, `hasActiveOffer` reports it, yet updating the expired row 2 to
status `active` succeeds (HTTP 200) and leaves two active rows for the pair,
violating the at-most-one-active invariant the claim states. -/
theorem C1_update_dedupe_dead :
    hasActiveOffer exPairDB 1 1 = true ∧
    (updateVehicleOffer exPairDB 2 { vehicle_id := some 1, status := some "active" }).code = 200 ∧
    activePairCount
      (updateVehicleOffer exPairDB 2 { vehicle_id := some 1, status := some "active" }).db 1 1
      = 2 := by decide

/-- C2 counterexample: the generic update operation, applied to a row whose
status is already `used`, changes its `vehicle_id` — a stored field other
than `notes` — so used rows are not immutable except for notes. -/
theorem C2_counterexample :
    (findVO exUsedDB 1).map (fun r => r.status) = some "used" ∧
    ((VehicleOffer.update exUsedDB 1 { vehicle_id := some 4 }).1.vehicle_offers.find?
        (fun r => r.id == 1)).map (fun r => r.vehicle_id) = some 4 := by decide

/-- C2 amended: the dedicated transition operations are one-directional —
`markAsUsed` and `markAsExpired` fail on every row that is not `active` — but
the generic update operation carries no status guard: it overwrites any
provided stored field (here `vehicle_id`) of a row regardless of its status. -/
theorem C2_amended_transitions (db : DB) (i vid now v : Nat) (nts : Option String)
    (h : ∀ r ∈ db.vehicle_offers, r.id = i → r.status ≠ "active") :
    (∃ e, VehicleOffer.markAsUsed db i vid nts now = Except.error e) ∧
    (∃ e, VehicleOffer.markAsExpired db i nts = Except.error e) ∧
    (∀ r ∈ (VehicleOffer.update db i { vehicle_id := some v }).1.vehicle_offers,
      r.id = i → r.vehicle_id = v) := by
  have hz : markAffected db.vehicle_offers i = 0 := markAffected_eq_zero _ _ h
  refine ⟨⟨"Vehicle offer not found or not active", ?_⟩,
          ⟨"Vehicle offer not found or not active", ?_⟩, ?_⟩
  · unfold VehicleOffer.markAsUsed
    simp [hz]
  · unfold VehicleOffer.markAsExpired
    simp [hz]
  · intro r hr hid
    unfold VehicleOffer.update at hr
    simp only [List.mem_map] at hr
    obtain ⟨r0, hr0, hr0eq⟩ := hr
    by_cases h0 : r0.id = i
    · rw [if_pos h0] at hr0eq
      rw [← hr0eq]
      rfl
    · rw [if_neg h0] at hr0eq
      rw [← hr0eq] at hid
      exact absurd hid h0

/-- C2 witness: the amended statement at the concrete one-used-row store. -/
theorem C2_amended_witness :
    (∃ e, VehicleOffer.markAsUsed exUsedDB 1 5 none 9 = Except.error e) ∧
    (∃ e, VehicleOffer.markAsExpired exUsedDB 1 none = Except.error e) ∧
    (∀ r ∈ (VehicleOffer.update exUsedDB 1 { vehicle_id := some 4 }).1.vehicle_offers,
      r.id = 1 → r.vehicle_id = 4) :=
  C2_amended_transitions exUsedDB 1 5 9 4 none (by decide)

/-- C4: on a store where every row carrying the given id is not `active`
(in particular any row already `used` or `expired`), both `markAsUsed` and
`markAsExpired` throw the not-found-or-not-active error, and the conditional
update each executes matches nothing and leaves every stored row unchanged. -/
theorem C4_terminal_rows_frozen (db : DB) (i vid now : Nat) (nts : Option String)
    (h : ∀ r ∈ db.vehicle_offers, r.id = i → r.status ≠ "active") :
    VehicleOffer.markAsUsed db i vid nts now
        = Except.error "Vehicle offer not found or not active" ∧
    VehicleOffer.markAsExpired db i nts
        = Except.error "Vehicle offer not found or not active" ∧
    markUsedMap db.vehicle_offers i vid nts now = db.vehicle_offers ∧
    markExpiredMap db.vehicle_offers i nts = db.vehicle_offers := by
  have hz : markAffected db.vehicle_offers i = 0 := markAffected_eq_zero _ _ h
  refine ⟨?_, ?_, markUsedMap_eq_self _ _ _ _ _ h, markExpiredMap_eq_self _ _ _ h⟩
  · unfold VehicleOffer.markAsUsed
    simp [hz]
  · unfold VehicleOffer.markAsExpired
    simp [hz]

/-- C4 witness: the statement at the concrete one-used-row store. -/
theorem C4_terminal_rows_frozen_witness :
    VehicleOffer.markAsUsed exUsedDB 1 42 none 99
        = Except.error "Vehicle offer not found or not active" ∧
    VehicleOffer.markAsExpired exUsedDB 1 none
        = Except.error "Vehicle offer not found or not active" ∧
    markUsedMap exUsedDB.vehicle_offers 1 42 none 99 = exUsedDB.vehicle_offers ∧
    markExpiredMap exUsedDB.vehicle_offers 1 none = exUsedDB.vehicle_offers :=
  C4_terminal_rows_frozen exUsedDB 1 42 99 none (by decide)


/-- C9: creating an offer with discount type `percentage` or `fixed_amount`
and a discount value that is absent, zero or negative always throws a
validation error (persisting nothing, since the insert is only reached on
success), while a successful `free_wash` creation persists `discount_value`
forced to 0 and appends exactly the returned row. -/
theorem C9_discount_pairing (db db2 : DB) (inp inp2 : OfferInput) (nid nid2 : Nat) (row : OfferRow)
    (hd : inp.discount_type = "percentage" ∨ inp.discount_type = "fixed_amount")
    (hv : valueMissingOrNonpos inp.discount_value = true)
    (h2 : inp2.discount_type = "free_wash")
    (hc : Offer.create db inp2 nid2 = Except.ok (db2, row)) :
    (∃ e, Offer.create db inp nid = Except.error e) ∧
    row.discount_value = some 0 ∧
    db2.offers = db.offers ++ [row] := by
  refine ⟨?_, ?_⟩
  · unfold Offer.create
    split
    · exact ⟨_, rfl⟩
    · split
      · exact ⟨_, rfl⟩
      · split
        · exact ⟨_, rfl⟩
        · split
          · exact ⟨_, rfl⟩
          · rename_i hreq henum hpair hfree
            exfalso
            apply hpair
            refine ⟨?_, hv⟩
            rcases hd with h | h <;> simp [h]
  · unfold Offer.create at hc
    split at hc
    · exact absurd hc (by simp)
    · split at hc
      · exact absurd hc (by simp)
      · split at hc
        · exact absurd hc (by simp)
        · split at hc
          · exact absurd hc (by simp)
          · rw [Except.ok.injEq, Prod.mk.injEq] at hc
            obtain ⟨hdb, hrow⟩ := hc
            subst hdb
            rw [← hrow]
            exact ⟨by simp [h2], rfl⟩

/-- C9 witness: a zero-valued percentage offer is rejected, and a concrete
`free_wash` creation persists value 0. -/
theorem C9_discount_pairing_witness :
    (∃ e, Offer.create exFreshDB
        { name := "w", visit_threshold := some 5, discount_type := "percentage",
          discount_value := some 0 } 1 = Except.error e) ∧
    (Offer.create exFreshDB
        { name := "w", visit_threshold := some 5, discount_type := "free_wash" } 1).toOption.map
        (fun x => x.2.discount_value) = some (some 0) := by
  have h := C9_discount_pairing exFreshDB
    { exFreshDB with offers := exFreshDB.offers ++
        [⟨1, "w", none, 5, "free_wash", some 0, true, none, none⟩] }
    { name := "w", visit_threshold := some 5, discount_type := "percentage",
      discount_value := some 0 }
    { name := "w", visit_threshold := some 5, discount_type := "free_wash" }
    1 1 ⟨1, "w", none, 5, "free_wash", some 0, true, none, none⟩
    (Or.inl rfl) (by decide) rfl rfl
  exact ⟨h.1, by decide⟩

/-- C10: recording a visit for a vehicle id with no row in the `vehicles`
table throws `Vehicle not found` before any write, and therefore the
absent-row fallback of `incrementOffersEarned` / `incrementOffersUsed`, which
delegates to `recordVisit`, propagates the same error instead of creating a
stats row (every operation only returns a changed store on success). -/
theorem C10_unknown_vehicle (db : DB) (v now : Nat) (hv : v ∉ db.vehicles) :
    VehicleStats.recordVisit db v now = Except.error "Vehicle not found" ∧
    (findStats db v = none →
      VehicleStats.incrementOffersEarned db v now = Except.error "Vehicle not found" ∧
      VehicleStats.incrementOffersUsed db v now = Except.error "Vehicle not found") := by
  have hrec : VehicleStats.recordVisit db v now = Except.error "Vehicle not found" := by
    unfold VehicleStats.recordVisit
    simp [hv]
  refine ⟨hrec, fun hns => ⟨?_, ?_⟩⟩
  · unfold VehicleStats.incrementOffersEarned
    simp [hns, hrec]
  · unfold VehicleStats.incrementOffersUsed
    simp [hns, hrec]

/-- C10 witness: the statement at vehicle id 9, absent from the store. -/
theorem C10_unknown_vehicle_witness :
    VehicleStats.recordVisit exFreshDB 9 30 = Except.error "Vehicle not found" ∧
    (findStats exFreshDB 9 = none →
      VehicleStats.incrementOffersEarned exFreshDB 9 30 = Except.error "Vehicle not found" ∧
      VehicleStats.incrementOffersUsed exFreshDB 9 30 = Except.error "Vehicle not found") :=
  C10_unknown_vehicle exFreshDB 9 30 (by decide)

/-- Mapping a bound-preserving function over the stats rows preserves the
ledger invariant. -/
theorem statsInv_map (db : DB) (g : StatsRow → StatsRow)
    (hg : ∀ s, s.current_visit_count ≤ s.total_visits →
      (g s).current_visit_count ≤ (g s).total_visits)
    (hinv : statsInv db) :
    statsInv { db with vehicle_stats := db.vehicle_stats.map g } := by
  intro s' hs'
  simp only [List.mem_map] at hs'
  obtain ⟨s0, hs0, rfl⟩ := hs'
  exact hg s0 (hinv s0 hs0)

/-- Appending a row satisfying the bound preserves the ledger invariant. -/
theorem statsInv_append (db : DB) (s : StatsRow)
    (hs : s.current_visit_count ≤ s.total_visits) (hinv : statsInv db) :
    statsInv { db with vehicle_stats := db.vehicle_stats ++ [s] } := by
  intro s' hs'
  rcases List.mem_append.mp hs' with h | h
  · exact hinv s' h
  · rw [List.mem_singleton] at h
    subst h
    exact hs

/-- `recordVisit` preserves the ledger invariant. -/
theorem statsInv_recordVisit (db db' : DB) (v now : Nat)
    (hinv : statsInv db) (h : VehicleStats.recordVisit db v now = Except.ok db') :
    statsInv db' := by
  unfold VehicleStats.recordVisit at h
  by_cases hv : v ∈ db.vehicles
  · rw [if_pos hv] at h
    cases hfs : findStats db v with
    | some s =>
        rw [hfs, Except.ok.injEq] at h
        subst h
        apply statsInv_map db _ _ hinv
        intro s0 h0
        by_cases hid : s0.vehicle_id = v
        · simp only [hid, if_pos rfl]
          exact Nat.succ_le_succ h0
        · simp only [if_neg hid]
          exact h0
    | none =>
        rw [hfs, Except.ok.injEq] at h
        subst h
        exact statsInv_append db _ (Nat.le_refl 1) hinv
  · rw [if_neg hv] at h
    exact absurd h (by simp)

/-- `bumpEarned` preserves the ledger invariant (it only touches
`total_offers_earned`). -/
theorem statsInv_bumpEarned (db : DB) (v : Nat) (hinv : statsInv db) :
    statsInv (bumpEarned db v) := by
  apply statsInv_map db _ _ hinv
  intro s0 h0
  by_cases hid : s0.vehicle_id = v
  · simpa [hid] using h0
  · simpa [hid] using h0

/-- `bumpUsed` preserves the ledger invariant (it only touches
`total_offers_used`). -/
theorem statsInv_bumpUsed (db : DB) (v : Nat) (hinv : statsInv db) :
    statsInv (bumpUsed db v) := by
  apply statsInv_map db _ _ hinv
  intro s0 h0
  by_cases hid : s0.vehicle_id = v
  · simpa [hid] using h0
  · simpa [hid] using h0

/-- `incrementOffersEarned` preserves the ledger invariant (the counter it
touches is not a visit counter, and its fallback goes through
`recordVisit`). -/
theorem statsInv_incEarned (db db' : DB) (v now : Nat)
    (hinv : statsInv db) (h : VehicleStats.incrementOffersEarned db v now = Except.ok db') :
    statsInv db' := by
  unfold VehicleStats.incrementOffersEarned at h
  split at h
  · rw [Except.ok.injEq] at h
    subst h
    exact statsInv_bumpEarned db v hinv
  · split at h
    · exact absurd h (by simp)
    · rename_i db1 hrec
      have hinv1 : statsInv db1 := statsInv_recordVisit db db1 v now hinv hrec
      split at h
      · rw [Except.ok.injEq] at h
        subst h
        exact statsInv_bumpEarned db1 v hinv1
      · exact absurd h (by simp)

/-- `incrementOffersUsed` preserves the ledger invariant. -/
theorem statsInv_incUsed (db db' : DB) (v now : Nat)
    (hinv : statsInv db) (h : VehicleStats.incrementOffersUsed db v now = Except.ok db') :
    statsInv db' := by
  unfold VehicleStats.incrementOffersUsed at h
  split at h
  · rw [Except.ok.injEq] at h
    subst h
    exact statsInv_bumpUsed db v hinv
  · split at h
    · exact absurd h (by simp)
    · rename_i db1 hrec
      have hinv1 : statsInv db1 := statsInv_recordVisit db db1 v now hinv hrec
      split at h
      · rw [Except.ok.injEq] at h
        subst h
        exact statsInv_bumpUsed db1 v hinv1
      · exact absurd h (by simp)

/-- The Bool form of the ledger invariant implies the Prop form. -/
theorem statsInv_of_statsInvB (db : DB) (h : statsInvB db = true) : statsInv db := by
  intro s hs
  have := List.all_eq_true.mp h s hs
  simpa using this

/-- `resetVisitCount` preserves the ledger invariant. -/
theorem statsInv_reset (db db' : DB) (v : Nat)
    (hinv : statsInv db) (h : VehicleStats.resetVisitCount db v = Except.ok db') :
    statsInv db' := by
  unfold VehicleStats.resetVisitCount at h
  by_cases hfs : (findStats db v).isSome
  · rw [if_pos hfs, Except.ok.injEq] at h
    subst h
    apply statsInv_map db _ _ hinv
    intro s0 h0
    by_cases hid : s0.vehicle_id = v
    · simp only [hid, if_pos rfl]
      exact Nat.zero_le _
    · simp only [if_neg hid]
      exact h0
  · rw [if_neg hfs] at h
    exact absurd h (by simp)

/-- `initializeStats` preserves the ledger invariant. -/
theorem statsInv_initStats (db : DB) (v : Nat) (hinv : statsInv db) :
    statsInv (VehicleStats.initStats db v) := by
  unfold VehicleStats.initStats
  cases hfs : findStats db v with
  | some s => exact hinv
  | none => exact statsInv_append db _ (Nat.le_refl 0) hinv

/-- C7 counterexample: the manual-adjust operation `updateStats` performs no
validation; at a row with `total_visits = 5`, setting
`current_visit_count := 10` succeeds and breaks the inequality, so not every
listed write operation preserves it. -/
theorem C7_counterexample :
    statsInvB exStatsDB = true ∧
    (VehicleStats.updateStats exStatsDB 1 { current_visit_count := some 10 }).toOption.map statsInvB
      = some false := by decide

/-- C7 amended: `recordVisit`, `resetVisitCount`, `incrementOffersEarned`,
`incrementOffersUsed` and `initializeStats` all preserve
`current_visit_count ≤ total_visits` for every stored row; the manual-adjust
`updateStats` operation, which sets the provided counters verbatim without
validation, is the one listed writer that can violate it. -/
theorem C7_inv_preserved (db : DB) (v now : Nat) (hinv : statsInv db) :
    (∀ db', VehicleStats.recordVisit db v now = Except.ok db' → statsInv db') ∧
    (∀ db', VehicleStats.resetVisitCount db v = Except.ok db' → statsInv db') ∧
    (∀ db', VehicleStats.incrementOffersEarned db v now = Except.ok db' → statsInv db') ∧
    (∀ db', VehicleStats.incrementOffersUsed db v now = Except.ok db' → statsInv db') ∧
    statsInv (VehicleStats.initStats db v) :=
  ⟨fun db' h => statsInv_recordVisit db db' v now hinv h,
   fun db' h => statsInv_reset db db' v hinv h,
   fun db' h => statsInv_incEarned db db' v now hinv h,
   fun db' h => statsInv_incUsed db db' v now hinv h,
   statsInv_initStats db v hinv⟩

/-- C7 witness: the amended statement at the concrete stats store. -/
theorem C7_inv_preserved_witness :
    (∀ db', VehicleStats.recordVisit exStatsDB 1 30 = Except.ok db' → statsInv db') ∧
    (∀ db', VehicleStats.resetVisitCount exStatsDB 1 = Except.ok db' → statsInv db') ∧
    (∀ db', VehicleStats.incrementOffersEarned exStatsDB 1 30 = Except.ok db' → statsInv db') ∧
    (∀ db', VehicleStats.incrementOffersUsed exStatsDB 1 30 = Except.ok db' → statsInv db') ∧
    statsInv (VehicleStats.initStats exStatsDB 1) :=
  C7_inv_preserved exStatsDB 1 30 (statsInv_of_statsInvB exStatsDB (by decide))

/-- On a known vehicle with no stats row, the `recordVisit` upsert takes the
insert arm and appends the row with both visit counters 1. -/
theorem recordVisit_insert (db : DB) (v now : Nat)
    (hv : v ∈ db.vehicles) (habs : findStats db v = none) :
    VehicleStats.recordVisit db v now
      = Except.ok { db with vehicle_stats := db.vehicle_stats ++ [⟨v, 1, 1, 0, 0, some now⟩] } := by
  unfold VehicleStats.recordVisit
  rw [if_pos hv, habs]

/-- `findStats` finds a freshly appended row when the table had none for the
vehicle. -/
theorem findStats_append (db : DB) (v : Nat) (s : StatsRow)
    (habs : findStats db v = none) (hs : s.vehicle_id = v) :
    findStats { db with vehicle_stats := db.vehicle_stats ++ [s] } v = some s := by
  unfold findStats at *
  rw [List.find?_append, habs]
  simp [List.find?, hs]

/-- `findStats` through the `bumpEarned` update. -/
theorem findStats_bumpEarned (db : DB) (v : Nat) :
    findStats (bumpEarned db v) v
      = (findStats db v).map (fun s =>
          if s.vehicle_id = v then { s with total_offers_earned := s.total_offers_earned + 1 }
          else s) := by
  unfold findStats bumpEarned
  exact find?_key_map (fun s => s.vehicle_id) db.vehicle_stats v
    (fun s => if s.vehicle_id = v then { s with total_offers_earned := s.total_offers_earned + 1 }
              else s)
    (fun s => by by_cases h : s.vehicle_id = v <;> simp [h])

/-- `findStats` through the `bumpUsed` update. -/
theorem findStats_bumpUsed (db : DB) (v : Nat) :
    findStats (bumpUsed db v) v
      = (findStats db v).map (fun s =>
          if s.vehicle_id = v then { s with total_offers_used := s.total_offers_used + 1 }
          else s) := by
  unfold findStats bumpUsed
  exact find?_key_map (fun s => s.vehicle_id) db.vehicle_stats v
    (fun s => if s.vehicle_id = v then { s with total_offers_used := s.total_offers_used + 1 }
              else s)
    (fun s => by by_cases h : s.vehicle_id = v <;> simp [h])

/-- C8 counterexample: at a store with vehicle 1 and no stats row,
`incrementOffersEarned` leaves `total_visits = 1` and
`current_visit_count = 1` (the fallback goes through `recordVisit`), not the
zeroed row the claim states. -/
theorem C8_counterexample :
    ((VehicleStats.incrementOffersEarned exFreshDB 1 30).toOption.bind
        (fun d => findStats d 1)).map
        (fun s => (s.total_visits, s.current_visit_count, s.total_offers_earned,
                   s.total_offers_used))
      = some (1, 1, 1, 0) ∧
    ¬ ((VehicleStats.incrementOffersEarned exFreshDB 1 30).toOption.bind
        (fun d => findStats d 1)).map
        (fun s => (s.total_visits, s.current_visit_count, s.total_offers_earned,
                   s.total_offers_used))
      = some (0, 0, 1, 0) := by decide

/-- C8 amended: on a vehicle that exists in the `vehicles` table but has no
stats row, the fallback of `incrementOffersEarned` / `incrementOffersUsed`
creates the row through `recordVisit`, so afterwards the row reads
`total_visits = 1`, `current_visit_count = 1` and the respective offers
counter 1 (the other 0) — not a zeroed row. -/
theorem C8_fallback_via_recordVisit (db : DB) (v now : Nat)
    (hv : v ∈ db.vehicles) (habs : findStats db v = none) :
    ((VehicleStats.incrementOffersEarned db v now).toOption.bind (fun d => findStats d v)).map
        (fun s => (s.total_visits, s.current_visit_count, s.total_offers_earned,
                   s.total_offers_used))
      = some (1, 1, 1, 0) ∧
    ((VehicleStats.incrementOffersUsed db v now).toOption.bind (fun d => findStats d v)).map
        (fun s => (s.total_visits, s.current_visit_count, s.total_offers_earned,
                   s.total_offers_used))
      = some (1, 1, 0, 1) := by
  have hrec := recordVisit_insert db v now hv habs
  have hfs1 : findStats
      { db with vehicle_stats := db.vehicle_stats ++ [⟨v, 1, 1, 0, 0, some now⟩] } v
      = some ⟨v, 1, 1, 0, 0, some now⟩ :=
    findStats_append db v _ habs rfl
  have hE : VehicleStats.incrementOffersEarned db v now
      = Except.ok (bumpEarned
          { db with vehicle_stats := db.vehicle_stats ++ [⟨v, 1, 1, 0, 0, some now⟩] } v) := by
    unfold VehicleStats.incrementOffersEarned
    simp [habs, hrec, hfs1]
  have hU : VehicleStats.incrementOffersUsed db v now
      = Except.ok (bumpUsed
          { db with vehicle_stats := db.vehicle_stats ++ [⟨v, 1, 1, 0, 0, some now⟩] } v) := by
    unfold VehicleStats.incrementOffersUsed
    simp [habs, hrec, hfs1]
  constructor
  · rw [hE]
    simp [Except.toOption, findStats_bumpEarned, hfs1]
  · rw [hU]
    simp [Except.toOption, findStats_bumpUsed, hfs1]

/-- C8 witness: the amended statement at the concrete fresh store. -/
theorem C8_fallback_via_recordVisit_witness :
    ((VehicleStats.incrementOffersEarned exFreshDB 1 35).toOption.bind
        (fun d => findStats d 1)).map
        (fun s => (s.total_visits, s.current_visit_count, s.total_offers_earned,
                   s.total_offers_used))
      = some (1, 1, 1, 0) ∧
    ((VehicleStats.incrementOffersUsed exFreshDB 1 35).toOption.bind
        (fun d => findStats d 1)).map
        (fun s => (s.total_visits, s.current_visit_count, s.total_offers_earned,
                   s.total_offers_used))
      = some (1, 1, 0, 1) :=
  C8_fallback_via_recordVisit exFreshDB 1 35 (by decide) (by decide)

/-- `findStats` through the per-visit counter update of `recordVisit`. -/
theorem findStats_visitMap (db : DB) (v now : Nat) :
    findStats { db with vehicle_stats := db.vehicle_stats.map (fun s =>
        if s.vehicle_id = v then
          { s with total_visits := s.total_visits + 1,
                   current_visit_count := s.current_visit_count + 1,
                   last_visit_date := some now }
        else s) } v
      = (findStats db v).map (fun s =>
          if s.vehicle_id = v then
            { s with total_visits := s.total_visits + 1,
                     current_visit_count := s.current_visit_count + 1,
                     last_visit_date := some now }
          else s) := by
  unfold findStats
  exact find?_key_map (fun s => s.vehicle_id) db.vehicle_stats v
    (fun s => if s.vehicle_id = v then
        { s with total_visits := s.total_visits + 1,
                 current_visit_count := s.current_visit_count + 1,
                 last_visit_date := some now }
      else s)
    (fun s => by by_cases h : s.vehicle_id = v <;> simp [h])

/-- C5: for any vehicle present in the `vehicles` table, `recordVisit`
succeeds in its single upsert: it reads back a stats row whose
`total_visits` and `current_visit_count` are each exactly one more than
before (reading 0 for an absent row, so a first visit needs no separate
initialization) and whose `last_visit_date` is the current time. -/
theorem C5_recordVisit_upsert (db : DB) (v now : Nat) (hv : v ∈ db.vehicles) :
    ∃ db', VehicleStats.recordVisit db v now = Except.ok db' ∧
      ((findStats db' v).map (fun s => s.total_visits))
        = some (((findStats db v).map (fun s => s.total_visits)).getD 0 + 1) ∧
      ((findStats db' v).map (fun s => s.current_visit_count))
        = some (((findStats db v).map (fun s => s.current_visit_count)).getD 0 + 1) ∧
      ((findStats db' v).map (fun s => s.last_visit_date)) = some (some now) := by
  cases hfs : findStats db v with
  | none =>
      refine ⟨_, recordVisit_insert db v now hv hfs, ?_⟩
      rw [findStats_append db v _ hfs rfl]
      simp [hfs]
  | some s =>
      have hkey : s.vehicle_id = v := by
        unfold findStats at hfs
        have := List.find?_some hfs
        simpa using this
      have hstep : VehicleStats.recordVisit db v now
          = Except.ok { db with vehicle_stats := db.vehicle_stats.map (fun s =>
              if s.vehicle_id = v then
                { s with total_visits := s.total_visits + 1,
                         current_visit_count := s.current_visit_count + 1,
                         last_visit_date := some now }
              else s) } := by
        unfold VehicleStats.recordVisit
        rw [if_pos hv, hfs]
      refine ⟨_, hstep, ?_⟩
      rw [findStats_visitMap, hfs]
      simp [hkey]

/-- C5 witness: the statement at the concrete stats store (an existing row)
and, through the same theorem, at the fresh store (absent row). -/
theorem C5_recordVisit_upsert_witness :
    (∃ db', VehicleStats.recordVisit exStatsDB 1 40 = Except.ok db' ∧
      ((findStats db' 1).map (fun s => s.total_visits))
        = some (((findStats exStatsDB 1).map (fun s => s.total_visits)).getD 0 + 1) ∧
      ((findStats db' 1).map (fun s => s.current_visit_count))
        = some (((findStats exStatsDB 1).map (fun s => s.current_visit_count)).getD 0 + 1) ∧
      ((findStats db' 1).map (fun s => s.last_visit_date)) = some (some 40)) ∧
    (∃ db', VehicleStats.recordVisit exFreshDB 1 40 = Except.ok db' ∧
      ((findStats db' 1).map (fun s => s.total_visits))
        = some (((findStats exFreshDB 1).map (fun s => s.total_visits)).getD 0 + 1) ∧
      ((findStats db' 1).map (fun s => s.current_visit_count))
        = some (((findStats exFreshDB 1).map (fun s => s.current_visit_count)).getD 0 + 1) ∧
      ((findStats db' 1).map (fun s => s.last_visit_date)) = some (some 40)) :=
  ⟨C5_recordVisit_upsert exStatsDB 1 40 (by decide),
   C5_recordVisit_upsert exFreshDB 1 40 (by decide)⟩

/-- The expiry-sweep step turns every row into a non-stale one: a matched
row leaves status `active`, an unmatched row was not stale already. -/
theorem voStale_expireStep (offers : List OfferRow) (today : Nat) (r : VORow) :
    voStale offers today (expireStep offers today r) = false := by
  unfold expireStep
  by_cases h : voStale offers today r = true
  · rw [if_pos h]
    simp [voStale]
  · rw [if_neg h]
    simpa using h

/-- The expiry-sweep step is the identity on rows its `WHERE` clause does
not match. -/
theorem expireStep_of_not_stale (offers : List OfferRow) (today : Nat) (r : VORow)
    (h : voStale offers today r = false) : expireStep offers today r = r := by
  unfold expireStep
  rw [h]
  simp

/-- The expiry-sweep step is idempotent on each row. -/
theorem expireStep_idem (offers : List OfferRow) (today : Nat) (r : VORow) :
    expireStep offers today (expireStep offers today r) = expireStep offers today r :=
  expireStep_of_not_stale offers today (expireStep offers today r)
    (voStale_expireStep offers today r)

/-- C6: the expiry sweep sends every active row whose linked offer expired
before today to status `expired` with the stamped auto-expiry note, keeps
every other row unchanged, leaves no row its `WHERE` clause would still
match, and is idempotent: a second run returns the same state and reports
zero affected rows. -/
theorem C6_expire_sweep (db : DB) (today : Nat) :
    (∀ r ∈ db.vehicle_offers, ∀ d : Nat, voStale db.offers today r = true →
      offerValidUntil db.offers r.offer_id = some d →
      ({ r with status := "expired", notes := some (autoExpireNote d) } : VORow)
        ∈ (VehicleOffer.expireOffers db today).1.vehicle_offers) ∧
    (∀ r ∈ db.vehicle_offers, voStale db.offers today r = false →
      r ∈ (VehicleOffer.expireOffers db today).1.vehicle_offers) ∧
    (∀ r ∈ (VehicleOffer.expireOffers db today).1.vehicle_offers,
      voStale (VehicleOffer.expireOffers db today).1.offers today r = false) ∧
    VehicleOffer.expireOffers (VehicleOffer.expireOffers db today).1 today
      = ((VehicleOffer.expireOffers db today).1, 0) := by
  refine ⟨?_, ?_, ?_, ?_⟩
  · intro r hr d hst hvu
    have hmem : expireStep db.offers today r
        ∈ db.vehicle_offers.map (expireStep db.offers today) :=
      List.mem_map_of_mem _ hr
    have hstep : expireStep db.offers today r
        = { r with status := "expired", notes := some (autoExpireNote d) } := by
      unfold expireStep
      rw [if_pos hst, hvu]
      rfl
    rw [← hstep]
    exact hmem
  · intro r hr hst
    have hmem := List.mem_map_of_mem (expireStep db.offers today) hr
    rw [expireStep_of_not_stale db.offers today r hst] at hmem
    exact hmem
  · intro r hr
    simp only [VehicleOffer.expireOffers, List.mem_map] at hr
    obtain ⟨r0, hr0, rfl⟩ := hr
    exact voStale_expireStep db.offers today r0
  · unfold VehicleOffer.expireOffers
    simp only [Prod.mk.injEq, DB.mk.injEq]
    refine ⟨⟨trivial, trivial, trivial, ?_⟩, ?_⟩
    · rw [List.map_map]
      apply List.map_congr_left
      intro a ha
      exact expireStep_idem db.offers today a
    · rw [List.countP_eq_zero]
      intro a ha
      simp only [List.mem_map] at ha
      obtain ⟨a0, ha0, rfl⟩ := ha
      simp [voStale_expireStep]

/-- C6 witness: at the concrete store, the stale active row 7 is transitioned
with the stamped note, and the second sweep is a no-op reporting 0 rows. -/
theorem C6_expire_sweep_witness :
    (({ (⟨7, 4, 2, none, 10, none, none, "active", none⟩ : VORow) with
        status := "expired"
        notes := some (autoExpireNote 50) } : VORow)
      ∈ (VehicleOffer.expireOffers exExpireDB 100).1.vehicle_offers) ∧
    VehicleOffer.expireOffers (VehicleOffer.expireOffers exExpireDB 100).1 100
      = ((VehicleOffer.expireOffers exExpireDB 100).1, 0) :=
  ⟨(C6_expire_sweep exExpireDB 100).1 ⟨7, 4, 2, none, 10, none, none, "active", none⟩
      (by decide) 50 (by decide) (by decide),
   (C6_expire_sweep exExpireDB 100).2.2.2⟩

/-- `findVO` through the `markAsUsed` conditional update. -/
theorem findVO_markUsedMap (db : DB) (i vid : Nat) (nts : Option String) (now : Nat) :
    findVO { db with vehicle_offers := markUsedMap db.vehicle_offers i vid nts now } i
      = (findVO db i).map (fun r =>
          if r.id = i ∧ r.status = "active" then
            { r with
              status := "used"
              used_date := some now
              used_on_visit_id := some vid
              notes := nts }
          else r) := by
  unfold findVO markUsedMap
  exact find?_key_map (fun r => r.id) db.vehicle_offers i
    (fun r => if r.id = i ∧ r.status = "active" then
        { r with
          status := "used"
          used_date := some now
          used_on_visit_id := some vid
          notes := nts }
      else r)
    (fun r => by by_cases h : r.id = i ∧ r.status = "active" <;> simp [h])

/-- `findStats` through the `resetVisitCount` update. -/
theorem findStats_resetMap (db : DB) (v : Nat) :
    findStats { db with vehicle_stats := db.vehicle_stats.map (fun s =>
        if s.vehicle_id = v then { s with current_visit_count := 0 } else s) } v
      = (findStats db v).map (fun s =>
          if s.vehicle_id = v then { s with current_visit_count := 0 } else s) := by
  unfold findStats
  exact find?_key_map (fun s => s.vehicle_id) db.vehicle_stats v
    (fun s => if s.vehicle_id = v then { s with current_visit_count := 0 } else s)
    (fun s => by by_cases h : s.vehicle_id = v <;> simp [h])

/-- `markAsUsed` on a store whose first row with the given id is `active`:
the conditional update matches, and the re-read row is that row with status
`used`, the stamped `used_date`, `used_on_visit_id` and notes. -/
theorem markAsUsed_success (db : DB) (i vid now : Nat) (nts : Option String) (r : VORow)
    (hr : findVO db i = some r) (ha : r.status = "active") :
    VehicleOffer.markAsUsed db i vid nts now
      = Except.ok ({ db with vehicle_offers := markUsedMap db.vehicle_offers i vid nts now },
          { r with
            status := "used"
            used_date := some now
            used_on_visit_id := some vid
            notes := nts }) := by
  have hid : r.id = i := by
    unfold findVO at hr
    have := List.find?_some hr
    simpa using this
  have hmem : r ∈ db.vehicle_offers := by
    unfold findVO at hr
    exact List.mem_of_find?_eq_some hr
  have hnz : ¬ markAffected db.vehicle_offers i = 0 := by
    intro h0
    unfold markAffected at h0
    have := List.countP_eq_zero.mp h0 r hmem
    apply this
    simp [hid, ha]
  have hfind : findVO
      { db with vehicle_offers := markUsedMap db.vehicle_offers i vid nts now } i
      = some { r with
               status := "used"
               used_date := some now
               used_on_visit_id := some vid
               notes := nts } := by
    rw [findVO_markUsedMap, hr]
    simp [hid, ha]
  unfold VehicleOffer.markAsUsed
  simp [hnz, hfind]

/-- C3: when the row fetched for the given id is `active` and its vehicle has
a stats row, the controller redemption succeeds (HTTP 200); afterwards the
offer row reads status `used` with `used_date` and `used_on_visit_id`
recorded, the vehicle's `current_visit_count` is 0 and its
`total_offers_used` is exactly one more than before. -/
theorem C3_redeem (db : DB) (i vid now : Nat) (nts : Option String) (r : VORow) (s : StatsRow)
    (hvid : vid ≠ 0)
    (hr : findVO db i = some r) (ha : r.status = "active")
    (hs : findStats db r.vehicle_id = some s) :
    (markOfferAsUsed db i vid nts now).code = 200 ∧
    ((findVO (markOfferAsUsed db i vid nts now).db i).map
        (fun x => (x.status, x.used_date, x.used_on_visit_id)))
      = some ("used", some now, some vid) ∧
    ((findStats (markOfferAsUsed db i vid nts now).db r.vehicle_id).map
        (fun x => (x.current_visit_count, x.total_offers_used)))
      = some (0, s.total_offers_used + 1) := by
  have hkey : s.vehicle_id = r.vehicle_id := by
    unfold findStats at hs
    have := List.find?_some hs
    simpa using this
  have hid : r.id = i := by
    unfold findVO at hr
    have := List.find?_some hr
    simpa using this
  have hmk := markAsUsed_success db i vid now nts r hr ha
  have hs1 : findStats
      { db with vehicle_offers := markUsedMap db.vehicle_offers i vid nts now }
      r.vehicle_id = some s := hs
  have hInc : VehicleStats.incrementOffersUsed
      { db with vehicle_offers := markUsedMap db.vehicle_offers i vid nts now } r.vehicle_id now
      = Except.ok (bumpUsed
          { db with vehicle_offers := markUsedMap db.vehicle_offers i vid nts now }
          r.vehicle_id) := by
    unfold VehicleStats.incrementOffersUsed
    rw [hs1]
  have hfsB : findStats (bumpUsed
      { db with vehicle_offers := markUsedMap db.vehicle_offers i vid nts now } r.vehicle_id)
      r.vehicle_id = some { s with total_offers_used := s.total_offers_used + 1 } := by
    rw [findStats_bumpUsed, hs1]
    simp [hkey]
  have hRes : VehicleStats.resetVisitCount (bumpUsed
      { db with vehicle_offers := markUsedMap db.vehicle_offers i vid nts now } r.vehicle_id)
      r.vehicle_id
      = Except.ok { (bumpUsed
            { db with vehicle_offers := markUsedMap db.vehicle_offers i vid nts now }
            r.vehicle_id) with
          vehicle_stats := (bumpUsed
            { db with vehicle_offers := markUsedMap db.vehicle_offers i vid nts now }
            r.vehicle_id).vehicle_stats.map
              (fun s => if s.vehicle_id = r.vehicle_id then { s with current_visit_count := 0 }
                        else s) } := by
    unfold VehicleStats.resetVisitCount
    rw [hfsB]
    rfl
  have hctrl : markOfferAsUsed db i vid nts now
      = ⟨{ (bumpUsed
            { db with vehicle_offers := markUsedMap db.vehicle_offers i vid nts now }
            r.vehicle_id) with
          vehicle_stats := (bumpUsed
            { db with vehicle_offers := markUsedMap db.vehicle_offers i vid nts now }
            r.vehicle_id).vehicle_stats.map
              (fun s => if s.vehicle_id = r.vehicle_id then { s with current_visit_count := 0 }
                        else s) },
         200, "Vehicle offer marked as used successfully"⟩ := by
    unfold markOfferAsUsed
    simp [hvid, hmk, hInc, hRes]
  rw [hctrl]
  refine ⟨rfl, ?_, ?_⟩
  · have h1 : findVO
        { db with vehicle_offers := markUsedMap db.vehicle_offers i vid nts now } i
        = some { r with
                 status := "used"
                 used_date := some now
                 used_on_visit_id := some vid
                 notes := nts } := by
      rw [findVO_markUsedMap, hr]
      simp [hid, ha]
    have hfoB : findVO
        { (bumpUsed
            { db with vehicle_offers := markUsedMap db.vehicle_offers i vid nts now }
            r.vehicle_id) with
          vehicle_stats := (bumpUsed
            { db with vehicle_offers := markUsedMap db.vehicle_offers i vid nts now }
            r.vehicle_id).vehicle_stats.map
              (fun s => if s.vehicle_id = r.vehicle_id then { s with current_visit_count := 0 }
                        else s) } i
        = some { r with
                 status := "used"
                 used_date := some now
                 used_on_visit_id := some vid
                 notes := nts } := h1
    rw [hfoB]
    rfl
  · rw [findStats_resetMap, hfsB]
    simp [hkey]

/-- C3 witness: the statement at the concrete one-active-offer store. -/
theorem C3_redeem_witness :
    (markOfferAsUsed exRedeemDB 7 42 none 99).code = 200 ∧
    ((findVO (markOfferAsUsed exRedeemDB 7 42 none 99).db 7).map
        (fun x => (x.status, x.used_date, x.used_on_visit_id)))
      = some ("used", some 99, some 42) ∧
    ((findStats (markOfferAsUsed exRedeemDB 7 42 none 99).db
        (⟨7, 4, 2, some 3, 10, none, none, "active", none⟩ : VORow).vehicle_id).map
        (fun x => (x.current_visit_count, x.total_offers_used)))
      = some (0, (⟨4, 6, 5, 1, 0, some 9⟩ : StatsRow).total_offers_used + 1) :=
  C3_redeem exRedeemDB 7 42 99 none ⟨7, 4, 2, some 3, 10, none, none, "active", none⟩
    ⟨4, 6, 5, 1, 0, some 9⟩ (by decide) (by decide) (by decide) (by decide)
